import Mathlib

/-!
Verification development for the route-runner-api request pipeline.

The TypeScript source is shallowly embedded: pure functions become Lean
functions over `ℚ` (JS numbers are modelled as exact rationals, with the
host `Math` trigonometry abstracted as an explicit `MathOps` record of
rational functions, since `Math.sin`/`Math.cos`/`Math.atan2`/`Math.sqrt`
are external library calls of the host), strings become `List Char`,
fallible external calls (`fetch`) become `Except Unit` valued oracles
passed in as parameters, and `try`/`catch` becomes explicit matching on
those oracle results.
-/

/-- JS `Math.round`: round half toward positive infinity. -/
def jsRound (q : ℚ) : ℤ := ⌊q + 1/2⌋

/-- `Math.round(x * 100) / 100`, the 2-decimal rounding used throughout. -/
def round2 (q : ℚ) : ℚ := (jsRound (q * 100) : ℚ) / 100

/-- `Math.round(x * 10) / 10`, the 1-decimal rounding used by the location agent. -/
def round1 (q : ℚ) : ℚ := (jsRound (q * 10) : ℚ) / 10

/-- A WGS84 coordinate, from `src/unnamed/part_002` (`interface Location`). -/
structure Location where
  lat : ℚ
  lng : ℚ
deriving DecidableEq, Repr

/-- The host `Math` library's real functions, abstracted as rational
oracles (the embedding is parametric in them; no claim here depends on
their analytic properties). -/
structure MathOps where
  sin : ℚ → ℚ
  cos : ℚ → ℚ
  sqrt : ℚ → ℚ
  atan2 : ℚ → ℚ → ℚ
  pi : ℚ

/-- One iteration of the loop in `estimateRouteDistance`
(`src/unnamed/part_003`, lines 271-283): haversine miles between two
consecutive points, earth radius 6371 km, converted by 0.621371. -/
def segmentMiles (M : MathOps) (p q : Location) : ℚ :=
  let lat1 := p.lat * M.pi / 180
  let lat2 := q.lat * M.pi / 180
  let dLat := lat2 - lat1
  let dLng := (q.lng - p.lng) * M.pi / 180
  let a := M.sin (dLat / 2) * M.sin (dLat / 2) +
    M.cos lat1 * M.cos lat2 * M.sin (dLng / 2) * M.sin (dLng / 2)
  let c := 2 * M.atan2 (M.sqrt a) (M.sqrt (1 - a))
  (6371 * c) * 0.621371

/-- Sum of consecutive-pair distances (the `for` loop accumulator). -/
def sumSegments (M : MathOps) : List Location → ℚ
  | p :: q :: rest => segmentMiles M p q + sumSegments M (q :: rest)
  | _ => 0

/-- `estimateRouteDistance` from `src/unnamed/part_003` (lines 267-286):
haversine polyline length, rounded to 2 decimals. -/
def estimateRouteDistance (M : MathOps) (points : List Location) : ℚ :=
  round2 (sumSegments M points)

/-- `ParsedIntent` from `src/src/agents/ai/types` (an absent `waypoints`
array behaves identically to `[]` at every use site, so it is modelled as
a plain list). -/
structure ParsedIntent where
  start : Location
  waypoints : List Location
  «end» : Location
  distance_miles : Option ℚ
  max_elevation_gain_feet : Option ℚ
  preferences : List (List Char)
deriving DecidableEq, Repr

/-- `generateAdditionalWaypoints` from `src/unnamed/part_003`
(lines 288-324): zigzag synthetic waypoints covering the shortage. -/
def generateAdditionalWaypoints (start «end» : Location)
    (targetMiles currentMiles : ℚ) : List Location :=
  let shortage := targetMiles - currentMiles
  if shortage ≤ 0 then []
  else
    let numWaypoints := (max 2 ⌈shortage / 0.5⌉).toNat
    let latDiff := «end».lat - start.lat
    let lngDiff := «end».lng - start.lng
    (List.range numWaypoints).map (fun (i : ℕ) =>
      let t : ℚ := ((i : ℚ) + 1) / ((numWaypoints : ℚ) + 1)
      let offsetScale : ℚ := (shortage * 0.004) * (if i % 2 = 0 then 1 else -1)
      { lat := start.lat + latDiff * t + lngDiff * offsetScale,
        lng := start.lng + lngDiff * t - latDiff * offsetScale })

/-- Step 2 of `generateRoute` (`src/unnamed/part_003`, lines 362-387):
if a positive distance target is declared and the estimated polyline is
short of 80% of it, append synthetic waypoints. -/
def validateAndExtend (M : MathOps) (intent : ParsedIntent) : ParsedIntent :=
  match intent.distance_miles with
  | none => intent
  | some d =>
    if 0 < d then
      let coords := intent.start :: (intent.waypoints ++ [intent.«end»])
      let estimatedMiles := estimateRouteDistance M coords
      let threshold := d * 0.8
      if estimatedMiles < threshold then
        let additionalWaypoints :=
          generateAdditionalWaypoints intent.start intent.«end» d estimatedMiles
        if 0 < additionalWaypoints.length then
          { intent with waypoints := intent.waypoints ++ additionalWaypoints }
        else intent
      else intent
    else intent

/-- `RouteGeometry` (`src/unnamed/part_003`): LineString coordinates as
(lng, lat) pairs. -/
structure RouteGeometry where
  gtype : List Char
  coordinates : List (ℚ × ℚ)
deriving DecidableEq, Repr

/-- `MapboxRoute` (`src/unnamed/part_003`): legs hold the per-step
maneuver types. -/
structure MapboxRoute where
  geometry : RouteGeometry
  distance : ℚ
  duration : ℚ
  legs : List (List String)
deriving DecidableEq, Repr

/-- `RouteStats` (`src/unnamed/part_003`). -/
structure RouteStats where
  distance_miles : ℚ
  elevation_gain_feet : ℚ
  num_turns : ℕ
  duration_minutes : ℚ
deriving DecidableEq, Repr

/-- Sum of the strictly positive consecutive deltas of the elevation
samples (the accumulation loop of `calculateStats`). -/
def posDeltaSum : List ℚ → ℚ
  | a :: b :: rest => (if 0 < b - a then b - a else 0) + posDeltaSum (b :: rest)
  | _ => 0

/-- `calculateStats` from `src/unnamed/part_003` (lines 177-216). -/
def calculateStats (mapboxRoute : MapboxRoute) (elevation : List ℚ) : RouteStats :=
  let distance_miles := mapboxRoute.distance * 0.000621371
  let elevation_gain_feet :=
    if 1 < elevation.length then posDeltaSum elevation * 3.28084 else 0
  let num_turns :=
    (mapboxRoute.legs.map (fun leg =>
      (leg.filter (fun t => t ≠ "depart" ∧ t ≠ "arrive")).length)).sum
  { distance_miles := round2 distance_miles,
    elevation_gain_feet := (jsRound elevation_gain_feet : ℚ),
    num_turns := num_turns,
    duration_minutes := (jsRound (mapboxRoute.duration / 60) : ℚ) }

/-- A route with no maneuvers, used as the concrete instance of the spec's
elevation example. -/
def demoRoute : MapboxRoute :=
  { geometry := { gtype := "LineString".toList, coordinates := [] },
    distance := 0, duration := 0, legs := [] }

/-- The elevation-gain projection of `calculateStats`, read off the
definition. -/
lemma calculateStats_gain (r : MapboxRoute) (e : List ℚ) :
    (calculateStats r e).elevation_gain_feet =
      (jsRound (if 1 < e.length then posDeltaSum e * 3.28084 else 0) : ℚ) := rfl

/-- C7: `elevation_gain_feet` is the rounded feet conversion (×3.28084) of
the sum of the positive consecutive elevation deltas, descents ignored; it
is 0 with fewer than 2 samples; and on samples [100, 105, 95, 110] meters
the gain is 66 feet. -/
theorem stats_elevation_gain_spec :
    ∀ (r : MapboxRoute) (e : List ℚ),
      ((calculateStats r e).elevation_gain_feet =
        if 2 ≤ e.length then (jsRound (posDeltaSum e * 3.28084) : ℚ) else 0)
      ∧ (calculateStats demoRoute [100, 105, 95, 110]).elevation_gain_feet = 66 := by
  intro r e
  constructor
  · rw [calculateStats_gain]
    rcases e with _ | ⟨a, _ | ⟨b, tl⟩⟩
    · norm_num [jsRound]
    · norm_num [jsRound]
    · have h1 : 1 < (a :: b :: tl).length := by simp
      have h2 : 2 ≤ (a :: b :: tl).length := by simp
      rw [if_pos h1, if_pos h2]
  · rw [calculateStats_gain]
    norm_num [posDeltaSum, jsRound]

/-- `ModelTier` from `src/src/agents/ai/types`. -/
inductive ModelTier where
  | fast
  | balanced
  | intelligent
deriving DecidableEq, Repr

/-- JS `\s` whitespace test on the ASCII range (the embedding restricts
queries to ASCII text). -/
def isWSChar (c : Char) : Bool :=
  c = ' ' || c = '\t' || c = '\n' || c = '\r' ||
  c = Char.ofNat 11 || c = Char.ofNat 12

/-- One right-fold step of `jsSplitWS`: the state is the field list built
so far together with a flag telling whether the character just to the
right was whitespace (so that a maximal run produces a single separator). -/
def splitWSStep (c : Char) (st : List (List Char) × Bool) :
    List (List Char) × Bool :=
  if isWSChar c then
    if st.2 then st else (([] : List Char) :: st.1, true)
  else
    (match st.1 with
     | f :: fs => (c :: f) :: fs
     | [] => [[c]], false)

/-- JS `str.split(/\s+/)`: fields between maximal whitespace runs, with an
empty leading (trailing) field when the string starts (ends) with
whitespace, and `[""]` on the empty string. -/
def jsSplitWS (s : List Char) : List (List Char) :=
  (s.foldr splitWSStep ([[]], false)).1

/-- JS `String.prototype.includes`: substring occurrence test. -/
def containsSub (s sub : List Char) : Bool :=
  match s with
  | [] => sub.isEmpty
  | _ :: rest => headMatch s sub || containsSub rest sub
where
  /-- Substring match anchored at the front. -/
  headMatch : List Char → List Char → Bool
    | _, [] => true
    | [], _ :: _ => false
    | a :: s, b :: t => a == b && headMatch s t

/-- JS `toLowerCase` on the ASCII range. -/
def jsToLower (c : Char) : Char :=
  if 'A' ≤ c ∧ c ≤ 'Z' then Char.ofNat (c.toNat + 32) else c

/-- The keyword test of `ModelSelector.determineTier`
(`src/src/agents/ai/modelSelector.ts`, lines 16-24). -/
def keywordHit (lowerQuery : List Char) : Bool :=
  containsSub lowerQuery "scenic".toList ||
  containsSub lowerQuery "avoid".toList ||
  containsSub lowerQuery "flat".toList ||
  containsSub lowerQuery "hilly".toList ||
  containsSub lowerQuery "challenging".toList ||
  containsSub lowerQuery "view".toList ||
  containsSub lowerQuery "waterfront".toList

/-- The capital-letter test `/[A-Z]/.test(query)`. -/
def hasCapital (query : List Char) : Bool :=
  query.any (fun c => decide ('A' ≤ c) && decide (c ≤ 'Z'))

/-- `ModelSelector.determineTier` from `src/src/agents/ai/modelSelector.ts`
(lines 10-40). -/
def determineTier (query : List Char) : ModelTier :=
  let lowerQuery := query.map jsToLower
  let wordCount := (jsSplitWS query).length
  if keywordHit lowerQuery || decide (20 < wordCount) then .intelligent
  else if hasCapital query || decide (10 < wordCount) then .balanced
  else .fast

/-- C8: the tier is INTELLIGENT exactly on a keyword hit in the lowercased
query or word count above 20; otherwise BALANCED exactly on a capital
letter or word count above 10; otherwise FAST; and "5 mile loop" is FAST. -/
theorem tier_selector_spec :
    ∀ q : List Char,
      (determineTier q = .intelligent ↔
        (keywordHit (q.map jsToLower) = true ∨ 20 < (jsSplitWS q).length))
      ∧ (determineTier q = .balanced ↔
        (¬(keywordHit (q.map jsToLower) = true ∨ 20 < (jsSplitWS q).length) ∧
          (hasCapital q = true ∨ 10 < (jsSplitWS q).length)))
      ∧ (determineTier q = .fast ↔
        (¬(keywordHit (q.map jsToLower) = true ∨ 20 < (jsSplitWS q).length) ∧
          ¬(hasCapital q = true ∨ 10 < (jsSplitWS q).length)))
      ∧ determineTier "5 mile loop".toList = .fast := by
  intro q
  refine ⟨?_, ?_, ?_, by decide⟩ <;>
    · simp only [determineTier]
      split_ifs with h1 h2 <;>
        simp_all [Bool.or_eq_true, decide_eq_true_eq]

/-- JS `String.prototype.trim` on the ASCII range: strip leading and
trailing whitespace. -/
def jsTrim (s : List Char) : List Char :=
  ((s.dropWhile isWSChar).reverse.dropWhile isWSChar).reverse

/-- The single-quote character. -/
def squote : Char := Char.ofNat 39

/-- The double-quote character. -/
def dquote : Char := Char.ofNat 34

/-- JS `str.replace(/['"]/g, '')`: delete every quote character. -/
def stripQuotes (s : List Char) : List Char :=
  s.filter (fun c => !(c == squote || c == dquote))

/-- The fixed fallback route name of both name-generation backends. -/
def fallbackName : List Char := "Adventure Run".toList

/-- `AnthropicProvider.generateName` from
`src/src/agents/ai/providers/anthropic.ts` (lines 156-200); the
`GeminiProvider` version (`src/unnamed/part_000`, lines 238-282) is
identical up to the response shape. The oracle argument is the backend
call: `.error ()` models `!response.ok`, `.ok content` models a parsed
body whose `content` array holds the text blocks. Reading
`data.content[0].text` of an empty `content` array throws in JS, which the
function does not catch, hence the `.error ()` result in that case. -/
def generateName (resp : Except Unit (List (List Char))) :
    Except Unit (List Char) :=
  match resp with
  | .error _ => .ok fallbackName
  | .ok content =>
    match content with
    | [] => .error ()
    | text :: _ =>
      let name := stripQuotes (jsTrim text)
      if (jsSplitWS name).length = 2 then .ok name else .ok fallbackName

/-- C9 counterexample: a successful HTTP response whose body has an empty
`content` array makes `generateName` raise (the `data.content[0].text`
access), contradicting the claim that every malformed response shape is
replaced by the fallback name without propagating an error. -/
theorem generateName_propagates_cex :
    generateName (Except.ok []) = Except.error () ∧
      Except.error () ≠ Except.ok fallbackName := by
  exact ⟨rfl, by simp⟩

/-- C9 amended: an HTTP-error response yields the fallback name; a body
with a first text block yields the trimmed, quote-stripped text exactly
when that text splits into exactly two fields under JS whitespace-run
splitting, and the fallback otherwise; but a body whose `content` array is
empty raises an error that propagates to the caller. -/
theorem generateName_split_check_spec :
    ∀ resp : Except Unit (List (List Char)),
      (resp = .error () → generateName resp = .ok fallbackName)
      ∧ (∀ t rest, resp = .ok (t :: rest) →
          generateName resp =
            .ok (if (jsSplitWS (stripQuotes (jsTrim t))).length = 2
                 then stripQuotes (jsTrim t) else fallbackName))
      ∧ (resp = .ok [] → generateName resp = .error ()) := by
  intro resp
  refine ⟨?_, ?_, ?_⟩
  · rintro rfl; rfl
  · rintro t rest rfl
    show (if _ then _ else _) = _
    split_ifs <;> rfl
  · rintro rfl; rfl

/-- C9 witness: instantiating the amended theorem on the concrete
two-token backend text "Sunset Sprint". -/
theorem generateName_split_check_spec_witness :
    generateName (Except.ok ["Sunset Sprint".toList]) =
      Except.ok (stripQuotes (jsTrim "Sunset Sprint".toList)) := by
  have h := (generateName_split_check_spec (Except.ok ["Sunset Sprint".toList])).2.1
    "Sunset Sprint".toList [] rfl
  have hc : (jsSplitWS (stripQuotes (jsTrim "Sunset Sprint".toList))).length = 2 := by
    decide
  rw [h, if_pos hc]

/-- The number of synthetic waypoints equals `max(2, ceil(shortage/0.5))`
whenever the shortage is positive. -/
lemma generateAdditionalWaypoints_length (s e : Location) (t c : ℚ)
    (h : 0 < t - c) :
    (generateAdditionalWaypoints s e t c).length = (max 2 ⌈(t - c) / 0.5⌉).toNat := by
  unfold generateAdditionalWaypoints
  rw [if_neg (by linarith)]
  show (List.map _ (List.range _)).length = _
  rw [List.length_map, List.length_range]

/-- C3: the augmentation step only ever appends waypoints (the original
list is always a prefix of the result, in order); and when a positive
target is declared and the estimate is strictly below 80% of it, exactly
`max(2, ceil(shortage/0.5))` synthetic waypoints are appended after the
existing ones, with `shortage = target - estimate`. -/
theorem waypointAugment_count_append :
    ∀ (M : MathOps) (intent : ParsedIntent),
      (∃ tail, (validateAndExtend M intent).waypoints = intent.waypoints ++ tail)
      ∧ (∀ d : ℚ, intent.distance_miles = some d → 0 < d →
          estimateRouteDistance M (intent.start :: (intent.waypoints ++ [intent.«end»])) < d * 0.8 →
          (validateAndExtend M intent).waypoints =
            intent.waypoints ++
              generateAdditionalWaypoints intent.start intent.«end» d
                (estimateRouteDistance M (intent.start :: (intent.waypoints ++ [intent.«end»])))
          ∧ (generateAdditionalWaypoints intent.start intent.«end» d
                (estimateRouteDistance M
                  (intent.start :: (intent.waypoints ++ [intent.«end»])))).length =
              (max 2 ⌈(d - estimateRouteDistance M
                  (intent.start :: (intent.waypoints ++ [intent.«end»]))) / 0.5⌉).toNat) := by
  intro M intent
  constructor
  · unfold validateAndExtend
    rcases intent.distance_miles with _ | d
    · exact ⟨[], (List.append_nil _).symm⟩
    · simp only
      split_ifs with h1 h2 h3
      · exact ⟨_, rfl⟩
      · exact ⟨[], (List.append_nil _).symm⟩
      · exact ⟨[], (List.append_nil _).symm⟩
      · exact ⟨[], (List.append_nil _).symm⟩
  · intro d hd hpos hshort
    have hshortage : 0 < d - estimateRouteDistance M
        (intent.start :: (intent.waypoints ++ [intent.«end»])) := by
      nlinarith
    have hlen := generateAdditionalWaypoints_length intent.start intent.«end» d
      (estimateRouteDistance M (intent.start :: (intent.waypoints ++ [intent.«end»])))
      hshortage
    have hcount : 0 < (generateAdditionalWaypoints intent.start intent.«end» d
        (estimateRouteDistance M
          (intent.start :: (intent.waypoints ++ [intent.«end»])))).length := by
      rw [hlen]
      have h2 : (2 : ℤ) ≤ max 2 ⌈(d - estimateRouteDistance M
          (intent.start :: (intent.waypoints ++ [intent.«end»]))) / 0.5⌉ :=
        le_max_left _ _
      omega
    constructor
    · unfold validateAndExtend
      rw [hd]
      simp only
      rw [if_pos hpos, if_pos hshort, if_pos hcount]
    · exact hlen

/-- A trivial instantiation of the abstracted host math library, used only
by witnesses. -/
def M0 : MathOps :=
  { sin := fun _ => 0, cos := fun _ => 0, sqrt := fun _ => 0,
    atan2 := fun _ _ => 0, pi := 0 }

/-- A concrete intent declaring a 1-mile target with coincident start and
end, used only by witnesses. -/
def intent0 : ParsedIntent :=
  { start := { lat := 0, lng := 0 }, waypoints := [],
    «end» := { lat := 0, lng := 0 }, distance_miles := some 1,
    max_elevation_gain_feet := none, preferences := [] }

/-- C3 witness: on `intent0` under `M0` the estimate is 0 < 0.8, so the
augmentation appends exactly `max(2, ceil(1/0.5)) = 2` waypoints. -/
theorem waypointAugment_count_append_witness :
    intent0.distance_miles = some 1 ∧ (0 : ℚ) < 1 ∧
      estimateRouteDistance M0 (intent0.start :: (intent0.waypoints ++ [intent0.«end»])) < 1 * 0.8 ∧
      ((validateAndExtend M0 intent0).waypoints =
        intent0.waypoints ++
          generateAdditionalWaypoints intent0.start intent0.«end» 1
            (estimateRouteDistance M0 (intent0.start :: (intent0.waypoints ++ [intent0.«end»])))
        ∧ (generateAdditionalWaypoints intent0.start intent0.«end» 1
              (estimateRouteDistance M0
                (intent0.start :: (intent0.waypoints ++ [intent0.«end»])))).length =
            (max 2 ⌈(1 - estimateRouteDistance M0
                (intent0.start :: (intent0.waypoints ++ [intent0.«end»]))) / 0.5⌉).toNat) := by
  have hest : estimateRouteDistance M0
      (intent0.start :: (intent0.waypoints ++ [intent0.«end»])) < 1 * 0.8 := by
    norm_num [estimateRouteDistance, sumSegments, segmentMiles, round2, jsRound, M0, intent0]
  exact ⟨rfl, by norm_num, hest,
    (waypointAugment_count_append M0 intent0).2 1 rfl (by norm_num) hest⟩

/-- `validateAndExtend` only ever touches the waypoint list; the declared
distance target is preserved. -/
lemma validateAndExtend_distance (M : MathOps) (i : ParsedIntent) :
    (validateAndExtend M i).distance_miles = i.distance_miles := by
  unfold validateAndExtend
  rcases h : i.distance_miles with _ | d
  · exact h
  · simp only
    split_ifs <;> simp [h]

/-- The observable result of the self-correction section of
`generateRoute`, together with the number of corrective `parseIntent`
calls and corrective directions calls it performed. -/
structure CorrectionOutcome where
  intent : ParsedIntent
  route : MapboxRoute
  stats : RouteStats
  parseCalls : ℕ
  dirCalls : ℕ
deriving Repr

/-- The self-correction section of `generateRoute`
(`src/unnamed/part_003`, lines 395-434). `reparse` is the (single
available) corrective `provider.parseIntent` call and `dirs` the
directions provider; the `try`/`catch` that absorbs a failure of either
corrective call is the explicit `.error` matching. Note that in the source
`intent.waypoints` is overwritten before the second directions call, so on
a failing second call the mutated intent remains while route and stats are
kept; the embedding reproduces that. The `if d = 0` branch reflects the JS
truthiness test `if (intent.distance_miles)`. -/
def correctionPhase (reparse : Except Unit ParsedIntent)
    (dirs : ParsedIntent → Except Unit MapboxRoute)
    (intent : ParsedIntent) (route : MapboxRoute) (stats : RouteStats) :
    CorrectionOutcome :=
  match intent.distance_miles with
  | none => ⟨intent, route, stats, 0, 0⟩
  | some d =>
    if d = 0 then ⟨intent, route, stats, 0, 0⟩
    else
      let errorMargin := |stats.distance_miles - d| / d
      if 0.15 < errorMargin then
        match reparse with
        | .error _ => ⟨intent, route, stats, 1, 0⟩
        | .ok newIntent =>
          let intent2 := { intent with waypoints := newIntent.waypoints }
          match dirs intent2 with
          | .error _ => ⟨intent2, route, stats, 1, 1⟩
          | .ok route2 => ⟨intent2, route2, calculateStats route2 [], 1, 1⟩
      else ⟨intent, route, stats, 0, 0⟩

/-- The orchestration of `generateRoute` around the directions call
(`src/unnamed/part_003`, lines 349-434): first intent parse (fatal on
error), distance validation, first directions call (fatal on error:
DirectionsUnavailable), preliminary stats without elevation, then the
one-shot self-correction section. -/
def generateRouteCore (M : MathOps) (parse1 reparse : Except Unit ParsedIntent)
    (dirs : ParsedIntent → Except Unit MapboxRoute) :
    Except Unit CorrectionOutcome :=
  match parse1 with
  | .error e => .error e
  | .ok intent0 =>
    let intent1 := validateAndExtend M intent0
    match dirs intent1 with
    | .error e => .error e
    | .ok route1 =>
      .ok (correctionPhase reparse dirs intent1 route1 (calculateStats route1 []))

/-- C1: with a declared nonzero distance target and a first directions
result, the self-correction path is taken exactly when the relative error
of the preliminary stats exceeds 0.15 strictly (so not at exactly 0.15),
and at most one corrective re-parse and one corrective directions call
occur, whatever the corrective calls return. -/
theorem selfCorrection_trigger_and_bound :
    ∀ (M : MathOps) (reparse : Except Unit ParsedIntent)
      (dirs : ParsedIntent → Except Unit MapboxRoute)
      (intent0 : ParsedIntent) (route1 : MapboxRoute) (d : ℚ),
      dirs (validateAndExtend M intent0) = .ok route1 →
      (validateAndExtend M intent0).distance_miles = some d → d ≠ 0 →
      generateRouteCore M (.ok intent0) reparse dirs =
          .ok (correctionPhase reparse dirs (validateAndExtend M intent0) route1
            (calculateStats route1 []))
      ∧ (correctionPhase reparse dirs (validateAndExtend M intent0) route1
            (calculateStats route1 [])).parseCalls ≤ 1
      ∧ (correctionPhase reparse dirs (validateAndExtend M intent0) route1
            (calculateStats route1 [])).dirCalls ≤ 1
      ∧ (0 < (correctionPhase reparse dirs (validateAndExtend M intent0) route1
            (calculateStats route1 [])).parseCalls +
            (correctionPhase reparse dirs (validateAndExtend M intent0) route1
              (calculateStats route1 [])).dirCalls ↔
          0.15 < |(calculateStats route1 []).distance_miles - d| / d) := by
  intro M reparse dirs intent0 route1 d hdirs hd hne
  constructor
  · unfold generateRouteCore
    simp only
    rw [hdirs]
  · unfold correctionPhase
    simp only [hd]
    rw [if_neg hne]
    split_ifs with hm
    · rcases reparse with _ | ni
      · simp [hm]
      · split
        · simp [hm]
        · split <;> simp [hm]
    · simp [hm]

/-- A directions response of 10000 meters (6.21 miles), used by witnesses. -/
def routeC : MapboxRoute :=
  { geometry := { gtype := "LineString".toList, coordinates := [] },
    distance := 10000, duration := 0, legs := [] }

/-- A constant directions provider, used by witnesses. -/
def dirsC : ParsedIntent → Except Unit MapboxRoute := fun _ => .ok routeC

/-- C1 witness: on `intent0` (target 1 mile) with a 6.21-mile first
result, the hypotheses hold concretely and the correction path is taken
with exactly one re-parse and one re-invocation. -/
theorem selfCorrection_trigger_and_bound_witness :
    dirsC (validateAndExtend M0 intent0) = .ok routeC ∧
    (validateAndExtend M0 intent0).distance_miles = some 1 ∧ (1 : ℚ) ≠ 0 ∧
    ((correctionPhase (.error ()) dirsC (validateAndExtend M0 intent0) routeC
        (calculateStats routeC [])).parseCalls ≤ 1
      ∧ (correctionPhase (.error ()) dirsC (validateAndExtend M0 intent0) routeC
        (calculateStats routeC [])).dirCalls ≤ 1) := by
  have h1 : dirsC (validateAndExtend M0 intent0) = .ok routeC := rfl
  have h2 : (validateAndExtend M0 intent0).distance_miles = some 1 := by
    rw [validateAndExtend_distance]; rfl
  have h3 : (1 : ℚ) ≠ 0 := by norm_num
  have h := selfCorrection_trigger_and_bound M0 (.error ()) dirsC intent0 routeC 1 h1 h2 h3
  exact ⟨h1, h2, h3, h.2.1, h.2.2.1⟩

/-- C2: when the correction path runs (declared nonzero target, error
above 0.15), a successful re-parse replaces only the waypoints of the
working intent (start, end and every other field are preserved from the
first pass); if the re-parse fails, or the second directions call on the
merged intent fails, the original route and stats are kept unchanged; and
the request as a whole still returns successfully in every such case. -/
theorem correction_waypointsOnly_bestEffort :
    ∀ (reparse : Except Unit ParsedIntent)
      (dirs : ParsedIntent → Except Unit MapboxRoute)
      (intent : ParsedIntent) (route : MapboxRoute) (stats : RouteStats) (d : ℚ),
      intent.distance_miles = some d → d ≠ 0 →
      0.15 < |stats.distance_miles - d| / d →
      ((∀ ni, reparse = .ok ni →
          (correctionPhase reparse dirs intent route stats).intent =
            { intent with waypoints := ni.waypoints })
      ∧ (reparse = .error () →
          (correctionPhase reparse dirs intent route stats).route = route ∧
          (correctionPhase reparse dirs intent route stats).stats = stats)
      ∧ (∀ ni, reparse = .ok ni →
          dirs { intent with waypoints := ni.waypoints } = .error () →
          (correctionPhase reparse dirs intent route stats).route = route ∧
          (correctionPhase reparse dirs intent route stats).stats = stats)
      ∧ (∀ (M : MathOps) (intent0 : ParsedIntent),
          validateAndExtend M intent0 = intent → dirs intent = .ok route →
          calculateStats route [] = stats →
          generateRouteCore M (.ok intent0) reparse dirs =
            .ok (correctionPhase reparse dirs intent route stats))) := by
  intro reparse dirs intent route stats d hd hne hm
  have hphase : correctionPhase reparse dirs intent route stats =
      (match reparse with
        | .error _ => ⟨intent, route, stats, 1, 0⟩
        | .ok ni =>
          match dirs { intent with waypoints := ni.waypoints } with
          | .error _ => ⟨{ intent with waypoints := ni.waypoints }, route, stats, 1, 1⟩
          | .ok route2 =>
            ⟨{ intent with waypoints := ni.waypoints }, route2,
              calculateStats route2 [], 1, 1⟩) := by
    unfold correctionPhase
    simp only [hd]
    rw [if_neg hne]
    rw [if_pos hm]
  refine ⟨?_, ?_, ?_, ?_⟩
  · rintro ni rfl
    rw [hphase]
    rcases h2 : dirs { intent with waypoints := ni.waypoints } with _ | r2 <;> simp [h2]
  · rintro rfl
    rw [hphase]
    exact ⟨rfl, rfl⟩
  · rintro ni rfl h2
    rw [hphase]
    simp [h2]
  · rintro M intent0 rfl hdir hstats
    unfold generateRouteCore
    simp only [hdir]
    rw [hstats]

/-- A corrective intent carrying one replacement waypoint, used by the C2
witness. -/
def intentN : ParsedIntent :=
  { start := { lat := 5, lng := 5 }, waypoints := [{ lat := 1, lng := 1 }],
    «end» := { lat := 5, lng := 5 }, distance_miles := some 2,
    max_elevation_gain_feet := none, preferences := [] }

/-- A directions provider that always fails, used by the C2 witness. -/
def dirsFail : ParsedIntent → Except Unit MapboxRoute := fun _ => .error ()

/-- C2 witness: with target 1 mile and preliminary stats of 6.21 miles the
correction triggers; the re-parse succeeds with `intentN`, the second
directions call fails, and the original route and stats are kept. -/
theorem correction_waypointsOnly_bestEffort_witness :
    intent0.distance_miles = some 1 ∧ (1 : ℚ) ≠ 0 ∧
    0.15 < |(calculateStats routeC []).distance_miles - 1| / 1 ∧
    ((correctionPhase (.ok intentN) dirsFail intent0 routeC
        (calculateStats routeC [])).route = routeC ∧
      (correctionPhase (.ok intentN) dirsFail intent0 routeC
        (calculateStats routeC [])).stats = calculateStats routeC []) := by
  have hm : 0.15 < |(calculateStats routeC []).distance_miles - 1| / 1 := by
    norm_num [calculateStats, routeC, round2, jsRound]
    rw [abs_of_nonneg (by norm_num : (0 : ℚ) ≤ 521 / 100)]
    norm_num
  have h := correction_waypointsOnly_bestEffort (.ok intentN) dirsFail intent0 routeC
    (calculateStats routeC []) 1 rfl (by norm_num) hm
  exact ⟨rfl, by norm_num, hm, h.2.2.1 intentN rfl rfl⟩

/-- Dynamic JS values, needed because the source types the geometry of a
geocoding feature as `coordinates: any` (`src/unnamed/part_001`, line 25)
and indexes into it untyped. -/
inductive JSVal where
  | num (q : ℚ)
  | arr (l : List JSVal)
  | undefined
deriving Repr

/-- JS array indexing: out-of-range reads give `undefined`. -/
def jsIndex (l : List JSVal) (i : ℕ) : JSVal := l.getD i JSVal.undefined

/-- JS truthiness on the modelled values (arrays are always truthy,
including empty ones; 0 and `undefined` are falsy). -/
def truthy : JSVal → Bool
  | .num q => decide (q ≠ 0)
  | .arr _ => true
  | .undefined => false

/-- `Array.isArray`. -/
def isArr : JSVal → Bool
  | .arr _ => true
  | _ => false

/-- `v[0]` on a dynamic value. -/
def jsFirst : JSVal → JSVal
  | .arr l => jsIndex l 0
  | _ => .undefined

/-- The destructuring `const [lng, lat] = v`, as the pair (v[0], v[1]).
Destructuring a non-iterable would throw in JS; the theorems only reach
this on array values. -/
def destructure2 (v : JSVal) : JSVal × JSVal :=
  match v with
  | .arr l => (jsIndex l 0, jsIndex l 1)
  | _ => (.undefined, .undefined)

/-- A `{lat, lng}` object built by `sampleRing`; its fields are dynamic
values because the MultiPolygon branch feeds `sampleRing` a list of rings
rather than a list of positions. -/
structure JSLoc where
  lat : JSVal
  lng : JSVal
deriving Repr

/-- `MAX_PERIMETER_POINTS` from `src/unnamed/part_001` (line 14). -/
def MAX_PERIMETER_POINTS : ℕ := 20

/-- `MILES_RADIUS` from `src/unnamed/part_001` (line 12). -/
def MILES_RADIUS : ℚ := 25

/-- The indices visited by `for (let i = 0; i < n; i += step)`. -/
def sampleIndices (n step : ℕ) : List ℕ :=
  (List.range ((n + step - 1) / step)).map (fun k => k * step)

/-- `sampleRing` from `src/unnamed/part_001` (lines 158-177): sample every
`step = max(1, floor(n / maxPoints))`-th element, destructuring each as a
(lng, lat) position. -/
def sampleRing (coordinates : List JSVal) (maxPoints : ℕ) : List JSLoc :=
  if coordinates.length = 0 then []
  else
    let step := max 1 (coordinates.length / maxPoints)
    let sampled := (sampleIndices coordinates.length step).map (fun i =>
      let p := destructure2 (jsIndex coordinates i)
      { lat := p.2, lng := p.1 })
    if sampled.length = 0 then
      let p := destructure2 (jsIndex coordinates 0)
      [{ lat := p.2, lng := p.1 }]
    else sampled

/-- `sampleRing` as invoked on a dynamic value (the JS call sites cast
`coordinates[0]` to `[number, number][]` without checking). -/
def sampleRingJS (v : JSVal) (maxPoints : ℕ) : List JSLoc :=
  match v with
  | .arr l => sampleRing l maxPoints
  | _ => []

/-- `createPerimeterFromBBox` from `src/unnamed/part_001` (lines 148-156):
bbox is (west, south, east, north). -/
def createPerimeterFromBBox (bbox : ℚ × ℚ × ℚ × ℚ) : List JSLoc :=
  let west := bbox.1
  let south := bbox.2.1
  let east := bbox.2.2.1
  let north := bbox.2.2.2
  [{ lat := .num north, lng := .num west },
   { lat := .num north, lng := .num east },
   { lat := .num south, lng := .num east },
   { lat := .num south, lng := .num west }]

/-- The geometry type tag of a geocoding feature. -/
inductive GeomType where
  | point
  | polygon
  | multiPolygon
deriving DecidableEq, Repr

/-- `MapboxGeometry` (`src/unnamed/part_001`): a type tag plus untyped
coordinates. -/
structure MapboxGeometry where
  gtype : GeomType
  coordinates : JSVal
deriving Repr

/-- `MapboxFeature` (`src/unnamed/part_001`): `center` is (lng, lat),
`bbox` is (west, south, east, north), `properties_category` models
`properties?.category`. -/
structure MapboxFeature where
  text : List Char
  place_name : List Char
  place_type : List (List Char)
  center : ℚ × ℚ
  geometry : MapboxGeometry
  bbox : Option (ℚ × ℚ × ℚ × ℚ)
  relevance : Option ℚ
  properties_category : Option (List Char)
deriving Repr

/-- `extractPerimeterPoints` from `src/unnamed/part_001` (lines 179-202):
polygon branch, then multipolygon branch (note the source passes
`coordinates[0]` — the first *polygon*, an array of rings — straight to
`sampleRing` there), then bbox corners, else nothing. -/
def extractPerimeterPoints (f : MapboxFeature) :
    Option (List JSLoc) × Option (List Char) :=
  if f.geometry.gtype = .polygon ∧ isArr f.geometry.coordinates = true ∧
      truthy (jsFirst f.geometry.coordinates) = true then
    let points := sampleRingJS (jsFirst f.geometry.coordinates) MAX_PERIMETER_POINTS
    (some points,
      some ("Perimeter from polygon (".toList ++
        Nat.toDigits 10 points.length ++ " pts)".toList))
  else if f.geometry.gtype = .multiPolygon ∧ isArr f.geometry.coordinates = true ∧
      truthy (jsFirst f.geometry.coordinates) = true then
    let points := sampleRingJS (jsFirst f.geometry.coordinates) MAX_PERIMETER_POINTS
    (some points,
      some ("Perimeter from multipolygon (".toList ++
        Nat.toDigits 10 points.length ++ " pts)".toList))
  else
    match f.bbox with
    | some b =>
      (some (createPerimeterFromBBox b), some "Perimeter from bounding box corners".toList)
    | none => (none, none)

/-- `LocationPurpose` (`src/unnamed/part_001`, line 8). -/
inductive Purpose where
  | perimeter
  | destination
  | landmark
  | unknown
deriving DecidableEq, Repr

/-- `PURPOSE_PRIORITY` (`src/unnamed/part_001`, lines 16-21). -/
def purposePriority : Purpose → ℕ
  | .perimeter => 3
  | .destination => 2
  | .landmark => 1
  | .unknown => 0

/-- `MentionSummary` (`src/unnamed/part_001`). -/
structure MentionSummary where
  phrase : List Char
  purpose : Purpose
deriving Repr

/-- `ResolvedLocation` (`src/unnamed/part_001`, lines 49-60). -/
structure ResolvedLocation where
  name : List Char
  type : List Char
  coordinates : Location
  distance_miles : ℚ
  perimeter_points : Option (List JSLoc)
  source : List Char
  confidence : ℚ
  purpose : Purpose
  mention : List Char
  notes : Option (List Char)
deriving Repr

/-- `haversineDistanceMiles` from `src/unnamed/part_001` (lines 71-84):
earth radius 3958.8 miles. -/
def haversineDistanceMiles (M : MathOps) (a b : Location) : ℚ :=
  let dLat := (b.lat - a.lat) * M.pi / 180
  let dLng := (b.lng - a.lng) * M.pi / 180
  let lat1 := a.lat * M.pi / 180
  let lat2 := b.lat * M.pi / 180
  let sinLat := M.sin (dLat / 2)
  let sinLng := M.sin (dLng / 2)
  let aCalc := sinLat * sinLat + M.cos lat1 * M.cos lat2 * sinLng * sinLng
  let c := 2 * M.atan2 (M.sqrt aCalc) (M.sqrt (1 - aCalc))
  3958.8 * c

/-- `const [lng, lat] = feature.center; coordinates = { lat, lng }`. -/
def centerLoc (f : MapboxFeature) : Location :=
  { lat := f.center.2, lng := f.center.1 }

/-- The distance of a candidate feature to the user. -/
def featureDist (M : MathOps) (user : Location) (f : MapboxFeature) : ℚ :=
  haversineDistanceMiles M user (centerLoc f)

/-- `resolveType` from `src/unnamed/part_001` (lines 204-214). -/
def resolveType (f : MapboxFeature) : List Char :=
  match f.place_type with
  | t :: _ => t
  | [] =>
    match f.properties_category with
    | some c => if c.isEmpty then "landmark".toList else c
    | none => "landmark".toList

/-- JS `a || b` on strings: `b` when `a` is empty. -/
def jsOrStr (a b : List Char) : List Char := if a.isEmpty then b else a

/-- `noteParts.join('; ')`. -/
def joinSemi : List (List Char) → List Char
  | [] => []
  | [x] => x
  | x :: xs => x ++ "; ".toList ++ joinSemi xs

/-- The `resolved` object built for one candidate feature inside
`geocodeMention` (`src/unnamed/part_001`, lines 246-268), before the
radius branch adjusts its notes. -/
def mkBaseResolved (M : MathOps) (mention : MentionSummary) (user : Location)
    (f : MapboxFeature) : ResolvedLocation :=
  { name := jsOrStr f.text (jsOrStr f.place_name mention.phrase),
    type := resolveType f,
    coordinates := centerLoc f,
    distance_miles := round1 (featureDist M user f),
    perimeter_points := (extractPerimeterPoints f).1,
    source := "mapbox".toList,
    confidence := f.relevance.getD 0,
    purpose := mention.purpose,
    mention := mention.phrase,
    notes := none }

/-- The notes attached to an in-radius candidate: the perimeter note when
there is one. -/
def withinNotes (f : MapboxFeature) : Option (List Char) :=
  let noteParts := match (extractPerimeterPoints f).2 with
    | some s => [s]
    | none => []
  if noteParts.isEmpty then none else some (joinSemi noteParts)

/-- An in-radius candidate as pushed onto `withinRadius`. -/
def mkWithin (M : MathOps) (mention : MentionSummary) (user : Location)
    (f : MapboxFeature) : ResolvedLocation :=
  { mkBaseResolved M mention user f with notes := withinNotes f }

/-- The notes of the out-of-radius fallback: the radius flag, put before
the perimeter note when there is one. -/
def fallbackNotes (f : MapboxFeature) : List Char :=
  let noteParts := match (extractPerimeterPoints f).2 with
    | some s => [s]
    | none => []
  joinSemi ("outside 25mi radius".toList :: noteParts)

/-- The out-of-radius fallback candidate. -/
def mkFallback (M : MathOps) (mention : MentionSummary) (user : Location)
    (f : MapboxFeature) : ResolvedLocation :=
  { mkBaseResolved M mention user f with notes := some (fallbackNotes f) }

/-- One iteration of the candidate loop of `geocodeMention`
(`src/unnamed/part_001`, lines 246-284): the state is (withinRadius,
fallback); a candidate within `MILES_RADIUS` is appended to the first
component, otherwise it becomes the fallback only if none is set yet. -/
def geocodeStep (M : MathOps) (mention : MentionSummary) (user : Location)
    (st : List ResolvedLocation × Option ResolvedLocation) (f : MapboxFeature) :
    List ResolvedLocation × Option ResolvedLocation :=
  if featureDist M user f ≤ MILES_RADIUS then
    (st.1 ++ [mkWithin M mention user f], st.2)
  else
    match st.2 with
    | some _ => st
    | none => (st.1, some (mkFallback M mention user f))

/-- The filtering tail of `geocodeMention` (`src/unnamed/part_001`,
lines 243-291): keep all within-radius candidates; if there are none,
keep the fallback (the first out-of-radius candidate) if any. -/
def geocodeFilter (M : MathOps) (mention : MentionSummary) (user : Location)
    (features : List MapboxFeature) : List ResolvedLocation :=
  let scanned := features.foldl (geocodeStep M mention user) ([], none)
  if 0 < scanned.1.length then scanned.1
  else
    match scanned.2 with
    | some fb => [fb]
    | none => []

/-- A Polygon feature whose outer ring carries 21 positions. -/
def ring21 : List JSVal :=
  (List.range 21).map (fun k => JSVal.arr [JSVal.num (k : ℚ), JSVal.num ((k : ℚ) + 1)])

/-- A Polygon feature with a 21-point outer ring, exhibiting the sampling
cap failure. -/
def f21 : MapboxFeature :=
  { text := "Big Park".toList, place_name := [], place_type := ["park".toList],
    center := (0, 0),
    geometry := { gtype := .polygon, coordinates := JSVal.arr [JSVal.arr ring21] },
    bbox := none, relevance := some 1, properties_category := none }

/-- The single two-position ring of `fMP`. -/
def ringMP : JSVal :=
  JSVal.arr [JSVal.arr [JSVal.num 0, JSVal.num 0], JSVal.arr [JSVal.num 1, JSVal.num 1]]

/-- A MultiPolygon feature with one polygon made of one two-position ring. -/
def fMP : MapboxFeature :=
  { text := "Lake".toList, place_name := [], place_type := ["park".toList],
    center := (0, 0),
    geometry := { gtype := .multiPolygon, coordinates := JSVal.arr [JSVal.arr [ringMP]] },
    bbox := none, relevance := some 1, properties_category := none }

/-- C5 (code bug): on a Polygon whose outer ring has 21 positions, the
sampling step is `max(1, floor(21/20)) = 1`, so all 21 points are
returned, exceeding the 20-point cap named by `MAX_PERIMETER_POINTS`; and
on a MultiPolygon the code samples `coordinates[0]` (the first polygon,
an array of rings) as if it were a ring, so the single produced "point"
has the ring's first two positions (arrays, not numbers) as its lng/lat
rather than being a sample of the first ring. -/
theorem samplePerimeter_cap_code_bug :
    ((extractPerimeterPoints f21).1.map List.length = some 21 ∧ MAX_PERIMETER_POINTS = 20)
    ∧ (extractPerimeterPoints fMP).1 =
        some [{ lat := JSVal.arr [JSVal.num 1, JSVal.num 1],
                lng := JSVal.arr [JSVal.num 0, JSVal.num 0] }] :=
  ⟨⟨by decide, rfl⟩, rfl⟩

/-- The within-radius component of the `geocodeMention` scan: candidates
within the radius are collected in order. -/
lemma geocode_scan_within (M : MathOps) (mention : MentionSummary) (user : Location) :
    ∀ (features : List MapboxFeature) (init : List ResolvedLocation × Option ResolvedLocation),
      (features.foldl (geocodeStep M mention user) init).1 =
        init.1 ++ (features.filter
          (fun f => decide (featureDist M user f ≤ MILES_RADIUS))).map
            (mkWithin M mention user) := by
  intro features
  induction features with
  | nil => intro init; simp
  | cons f fs ih =>
    intro init
    rw [List.foldl_cons, ih]
    by_cases h : featureDist M user f ≤ MILES_RADIUS
    · simp [geocodeStep, h]
    · rcases hst : init.2 with _ | fb <;> simp [geocodeStep, h, hst]

/-- The fallback component of the `geocodeMention` scan: the first
out-of-radius candidate, set once. -/
lemma geocode_scan_fallback (M : MathOps) (mention : MentionSummary) (user : Location) :
    ∀ (features : List MapboxFeature) (init : List ResolvedLocation × Option ResolvedLocation),
      (features.foldl (geocodeStep M mention user) init).2 =
        (match init.2 with
         | some x => some x
         | none =>
           (features.find? (fun f => !decide (featureDist M user f ≤ MILES_RADIUS))).map
             (mkFallback M mention user)) := by
  intro features
  induction features with
  | nil => intro init; rcases init with ⟨w, _ | fb⟩ <;> simp
  | cons f fs ih =>
    intro init
    rw [List.foldl_cons, ih]
    rcases hst : init.2 with _ | fb
    · by_cases h : featureDist M user f ≤ MILES_RADIUS
      · simp [geocodeStep, h, hst, List.find?]
      · simp [geocodeStep, h, hst, List.find?]
    · by_cases h : featureDist M user f ≤ MILES_RADIUS
      · simp [geocodeStep, h, hst]
      · simp [geocodeStep, h, hst]

/-- C4 amended: every candidate within 25 miles of the user is kept (all
of them, when any exists); if no candidate lies within 25 miles, exactly
one candidate is kept, namely the FIRST out-of-radius candidate in the
provider's ranked order (not necessarily the nearest), and its notes carry
the `outside 25mi radius` flag. -/
theorem geocode_radius_filter_first_fallback :
    ∀ (M : MathOps) (mention : MentionSummary) (user : Location)
      (features : List MapboxFeature),
      (∀ f ∈ features, featureDist M user f ≤ MILES_RADIUS →
        mkWithin M mention user f ∈ geocodeFilter M mention user features)
      ∧ ((∀ f ∈ features, ¬ featureDist M user f ≤ MILES_RADIUS) →
        geocodeFilter M mention user features =
          (features.head?.map (mkFallback M mention user)).toList
        ∧ ∀ r ∈ geocodeFilter M mention user features,
            ∃ rest, r.notes = some ("outside 25mi radius".toList ++ rest)) := by
  intro M mention user features
  have hwithin := geocode_scan_within M mention user features ([], none)
  have hfb := geocode_scan_fallback M mention user features ([], none)
  constructor
  · intro f hf hdist
    have hmem : mkWithin M mention user f ∈
        (features.foldl (geocodeStep M mention user) ([], none)).1 := by
      rw [hwithin]
      simp only [List.nil_append]
      exact List.mem_map_of_mem _ (List.mem_filter.2 ⟨hf, by simpa using hdist⟩)
    unfold geocodeFilter
    rw [if_pos (List.length_pos_of_mem hmem)]
    exact hmem
  · intro hall
    have hw0 : (features.foldl (geocodeStep M mention user) ([], none)).1 = [] := by
      rw [hwithin]
      simp only [List.nil_append, List.map_eq_nil_iff, List.filter_eq_nil_iff]
      intro f hf
      simpa using hall f hf
    have hfind : features.find?
        (fun f => !decide (featureDist M user f ≤ MILES_RADIUS)) = features.head? := by
      rcases features with _ | ⟨f, fs⟩
      · rfl
      · rw [List.find?_cons_of_pos]
        · rfl
        · simpa using hall f (by simp)
    have hres : geocodeFilter M mention user features =
        (features.head?.map (mkFallback M mention user)).toList := by
      unfold geocodeFilter
      rw [if_neg (by rw [hw0]; simp), hfb]
      simp only [hfind]
      rcases features.head? with _ | f <;> simp
    refine ⟨hres, ?_⟩
    intro r hr
    rw [hres] at hr
    rcases hh : features.head? with _ | f
    · rw [hh] at hr; simp at hr
    · rw [hh] at hr
      simp at hr
      subst hr
      show ∃ rest, (mkFallback M mention user f).notes = _
      unfold mkFallback fallbackNotes
      rcases (extractPerimeterPoints f).2 with _ | s
      · exact ⟨[], rfl⟩
      · exact ⟨"; ".toList ++ s, rfl⟩

/-- A concrete instantiation of the host math oracles under which the
haversine expressions evaluate to definite rationals; used by the C4
counterexample and witnesses. -/
def Mex : MathOps :=
  { sin := fun x => x, cos := fun _ => 0, sqrt := fun x => x,
    atan2 := fun y _ => y, pi := 180 }

/-- The user position of the C4 scenarios. -/
def userEx : Location := { lat := 0, lng := 0 }

/-- The mention of the C4 scenarios. -/
def mentionEx : MentionSummary := { phrase := "park".toList, purpose := .landmark }

/-- A far out-of-radius candidate, ranked first by the provider. -/
def fA : MapboxFeature :=
  { text := "Far Field".toList, place_name := [], place_type := ["poi".toList],
    center := (0, 1), geometry := { gtype := .point, coordinates := .undefined },
    bbox := none, relevance := some 1, properties_category := none }

/-- A nearer but still out-of-radius candidate, ranked second. -/
def fB : MapboxFeature :=
  { text := "Near Field".toList, place_name := [], place_type := ["poi".toList],
    center := (0, 1/2), geometry := { gtype := .point, coordinates := .undefined },
    bbox := none, relevance := some 1, properties_category := none }

/-- An in-radius candidate. -/
def fW : MapboxFeature :=
  { text := "User Spot".toList, place_name := [], place_type := ["poi".toList],
    center := (0, 0), geometry := { gtype := .point, coordinates := .undefined },
    bbox := none, relevance := some 1, properties_category := none }

/-- C4 counterexample: with two out-of-radius candidates of which the
second is strictly nearer, the code keeps the FIRST one, not the nearest —
the retained single candidate is built from `fA` although `fB` is closer. -/
theorem geocode_fallback_not_nearest_cex :
    geocodeFilter Mex mentionEx userEx [fA, fB] = [mkFallback Mex mentionEx userEx fA]
    ∧ ¬ featureDist Mex userEx fA ≤ MILES_RADIUS
    ∧ ¬ featureDist Mex userEx fB ≤ MILES_RADIUS
    ∧ featureDist Mex userEx fB < featureDist Mex userEx fA
    ∧ (mkFallback Mex mentionEx userEx fA).name = "Far Field".toList
    ∧ (mkFallback Mex mentionEx userEx fB).name = "Near Field".toList := by
  have hA : ¬ featureDist Mex userEx fA ≤ MILES_RADIUS := by
    norm_num [featureDist, haversineDistanceMiles, centerLoc, Mex, fA, userEx, MILES_RADIUS]
  have hB : ¬ featureDist Mex userEx fB ≤ MILES_RADIUS := by
    norm_num [featureDist, haversineDistanceMiles, centerLoc, Mex, fB, userEx, MILES_RADIUS]
  refine ⟨?_, hA, hB, ?_, rfl, rfl⟩
  · simp [geocodeFilter, geocodeStep, hA, hB]
  · norm_num [featureDist, haversineDistanceMiles, centerLoc, Mex, fA, fB, userEx]

/-- C4 witness: the amended theorem instantiated on one in-radius feature
and on one out-of-radius feature. -/
theorem geocode_radius_filter_first_fallback_witness :
    (featureDist Mex userEx fW ≤ MILES_RADIUS ∧
      mkWithin Mex mentionEx userEx fW ∈ geocodeFilter Mex mentionEx userEx [fW])
    ∧ ((∀ f ∈ [fA], ¬ featureDist Mex userEx f ≤ MILES_RADIUS) ∧
      geocodeFilter Mex mentionEx userEx [fA] =
        (([fA] : List MapboxFeature).head?.map (mkFallback Mex mentionEx userEx)).toList) := by
  have hw : featureDist Mex userEx fW ≤ MILES_RADIUS := by
    norm_num [featureDist, haversineDistanceMiles, centerLoc, Mex, fW, userEx, MILES_RADIUS]
  have ha : ∀ f ∈ [fA], ¬ featureDist Mex userEx f ≤ MILES_RADIUS := by
    intro f hf
    rw [List.mem_singleton] at hf
    subst hf
    norm_num [featureDist, haversineDistanceMiles, centerLoc, Mex, fA, userEx, MILES_RADIUS]
  exact ⟨⟨hw, (geocode_radius_filter_first_fallback Mex mentionEx userEx [fW]).1 fW
      (by simp) hw⟩,
    ⟨ha, ((geocode_radius_filter_first_fallback Mex mentionEx userEx [fA]).2 ha).1⟩⟩

/-- The 4-decimal rounding of a coordinate as used in the merge key: the
sign flag and the ties-to-larger 4-decimal integer of the magnitude,
modelling the `toFixed(4)` rendering of ECMAScript (which formats the
negated magnitude after emitting a leading minus). -/
def fixed4 (q : ℚ) : Bool × ℤ := (decide (q < 0), jsRound (|q| * 10000))

/-- The merge key of `resolveLocations` (`src/unnamed/part_001`,
line 324): lowercased name and both coordinates rounded to 4 decimals
(the source renders these into one underscore-joined string; the key
triple carries the same distinguishing data). -/
def locationKey (c : ResolvedLocation) : List Char × (Bool × ℤ) × (Bool × ℤ) :=
  (c.name.map jsToLower, fixed4 c.coordinates.lat, fixed4 c.coordinates.lng)

/-- The merge key type. -/
abbrev MergeKey := List Char × (Bool × ℤ) × (Bool × ℤ)

/-- JS nullish coalescing `a ?? b` on optional values. -/
def jsNullish {α : Type} (a b : Option α) : Option α :=
  match a with
  | none => b
  | some x => some x

/-- `Map.get` over the insertion-ordered association list. -/
def findEntry : List (MergeKey × ResolvedLocation) → MergeKey → Option ResolvedLocation
  | [], _ => none
  | (k', v) :: rest, k => if k' = k then some v else findEntry rest k

/-- `Map.set` over the insertion-ordered association list: replace in
place when the key exists, append otherwise. -/
def setEntry : List (MergeKey × ResolvedLocation) → MergeKey → ResolvedLocation →
    List (MergeKey × ResolvedLocation)
  | [], k, v => [(k, v)]
  | (k', v') :: rest, k, v =>
    if k' = k then (k', v) :: rest else (k', v') :: setEntry rest k v

/-- One candidate of the merge loop of `resolveLocations`
(`src/unnamed/part_001`, lines 322-337): a strictly higher-priority
candidate replaces the stored entry outright; otherwise, if the stored
entry lacks perimeter points and the candidate has them (an empty array
counts as having them — arrays are truthy), the points and notes are
backfilled; otherwise nothing changes. -/
def mergeStep (m : List (MergeKey × ResolvedLocation)) (candidate : ResolvedLocation) :
    List (MergeKey × ResolvedLocation) :=
  let key := locationKey candidate
  match findEntry m key with
  | none => setEntry m key candidate
  | some existing =>
    if purposePriority existing.purpose < purposePriority candidate.purpose then
      setEntry m key candidate
    else if existing.perimeter_points.isNone ∧ candidate.perimeter_points.isSome then
      setEntry m key
        { existing with
            perimeter_points := candidate.perimeter_points,
            notes := jsNullish candidate.notes existing.notes }
    else m

/-- The whole merge loop over all candidates of all mentions, in order. -/
def mergeList (cs : List ResolvedLocation) : List (MergeKey × ResolvedLocation) :=
  cs.foldl mergeStep []

/-- The purpose of higher priority among two (the first on a tie). -/
def maxPurpose (p q : Purpose) : Purpose :=
  if purposePriority p < purposePriority q then q else p

/-- Priorities determine purposes uniquely. -/
lemma purposePriority_inj : ∀ p q : Purpose, purposePriority p = purposePriority q → p = q := by
  intro p q h
  cases p <;> cases q <;> simp_all [purposePriority]

/-- Evaluation of the merge on two candidates sharing a key. -/
lemma mergeList_pair (c1 c2 : ResolvedLocation) (hkey : locationKey c1 = locationKey c2) :
    mergeList [c1, c2] =
      [(locationKey c1,
        if purposePriority c1.purpose < purposePriority c2.purpose then c2
        else if c1.perimeter_points.isNone ∧ c2.perimeter_points.isSome then
          { c1 with
              perimeter_points := c2.perimeter_points,
              notes := jsNullish c2.notes c1.notes }
        else c1)] := by
  show mergeStep (mergeStep [] c1) c2 = _
  have h1 : mergeStep [] c1 = [(locationKey c1, c1)] := rfl
  rw [h1]
  have hf : findEntry [(locationKey c1, c1)] (locationKey c2) = some c1 := by
    simp [findEntry, hkey]
  have hs : ∀ x, setEntry [(locationKey c1, c1)] (locationKey c2) x =
      [(locationKey c1, x)] := by
    intro x
    simp [setEntry, hkey]
  unfold mergeStep
  simp only [hf]
  split_ifs with hp hb
  · rw [hs]
  · rw [hs]
  · rfl

/-- C6 amended: for two candidates sharing the merge key, in either
processing order exactly one entry is retained and it carries the
higher-priority purpose of the two; when the later candidate does not
strictly beat the stored one and the stored entry lacks perimeter points
while the candidate has them, the points (and notes) are backfilled
without altering the stored purpose; but when the later candidate
strictly wins, it replaces the entry outright and no perimeter points are
backfilled from the discarded entry. -/
theorem merge_priority_and_tie_backfill :
    ∀ (c1 c2 : ResolvedLocation), locationKey c1 = locationKey c2 →
      (∃ r, mergeList [c1, c2] = [(locationKey c1, r)] ∧
        r.purpose = maxPurpose c1.purpose c2.purpose ∧
        (purposePriority c1.purpose < purposePriority c2.purpose → r = c2) ∧
        (¬ purposePriority c1.purpose < purposePriority c2.purpose →
          c1.perimeter_points = none → c2.perimeter_points.isSome = true →
          r = { c1 with
                  perimeter_points := c2.perimeter_points,
                  notes := jsNullish c2.notes c1.notes }))
      ∧ (∃ s, mergeList [c2, c1] = [(locationKey c1, s)] ∧
          s.purpose = maxPurpose c1.purpose c2.purpose) := by
  intro c1 c2 hkey
  have e12 := mergeList_pair c1 c2 hkey
  have e21 := mergeList_pair c2 c1 hkey.symm
  rw [← hkey] at e21
  constructor
  · refine ⟨_, e12, ?_, ?_, ?_⟩
    · split_ifs with hp hb
      · simp [maxPurpose, hp]
      · show c1.purpose = _
        simp [maxPurpose, hp]
      · simp [maxPurpose, hp]
    · intro hp
      rw [if_pos hp]
    · intro hp hnone hsome
      rw [if_neg hp, if_pos ⟨by simp [hnone], hsome⟩]
  · refine ⟨_, e21, ?_⟩
    split_ifs with hq hb
    · -- c2 strictly beaten: c1 retained
      have hp : ¬ purposePriority c1.purpose < purposePriority c2.purpose := by omega
      simp [maxPurpose, hp]
    · -- tie or c1 weaker, backfill case: purpose stays c2's
      show c2.purpose = _
      by_cases hp : purposePriority c1.purpose < purposePriority c2.purpose
      · simp [maxPurpose, hp]
      · have heq : purposePriority c1.purpose = purposePriority c2.purpose := by omega
        have := purposePriority_inj _ _ heq
        simp [maxPurpose, hp, this]
    · by_cases hp : purposePriority c1.purpose < purposePriority c2.purpose
      · simp [maxPurpose, hp]
      · have heq : purposePriority c1.purpose = purposePriority c2.purpose := by omega
        have := purposePriority_inj _ _ heq
        simp [maxPurpose, hp, this]

/-- A perimeter point used by concrete merge candidates. -/
def ptJS : JSLoc := { lat := JSVal.num 47, lng := JSVal.num (-122) }

/-- A landmark-purpose candidate that carries perimeter points. -/
def c1x : ResolvedLocation :=
  { name := "Green Lake".toList, type := "poi".toList,
    coordinates := { lat := 47, lng := -122 }, distance_miles := 1,
    perimeter_points := some [ptJS], source := "mapbox".toList, confidence := 1,
    purpose := .landmark, mention := "Green Lake".toList, notes := none }

/-- A perimeter-purpose candidate with the same key but no perimeter
points. -/
def c2x : ResolvedLocation :=
  { name := "Green Lake".toList, type := "poi".toList,
    coordinates := { lat := 47, lng := -122 }, distance_miles := 1,
    perimeter_points := none, source := "mapbox".toList, confidence := 1,
    purpose := .perimeter, mention := "around Green Lake".toList, notes := none }

/-- C6 counterexample: a higher-priority candidate processed second
replaces the stored entry wholesale, so the retained entry lacks perimeter
points although the discarded entry had them — no backfill happens on
replacement, contrary to the claim. -/
theorem merge_replacement_drops_points_cex :
    mergeList [c1x, c2x] = [(locationKey c1x, c2x)]
    ∧ c2x.perimeter_points = none
    ∧ c1x.perimeter_points.isSome = true
    ∧ purposePriority c1x.purpose < purposePriority c2x.purpose := by
  have hkey : locationKey c1x = locationKey c2x := rfl
  have hp : purposePriority c1x.purpose < purposePriority c2x.purpose := by decide
  refine ⟨?_, rfl, rfl, hp⟩
  rw [mergeList_pair c1x c2x hkey, if_pos hp]

/-- C6 witness: the amended theorem instantiated on the concrete pair. -/
theorem merge_priority_and_tie_backfill_witness :
    locationKey c1x = locationKey c2x ∧
    (∃ r, mergeList [c1x, c2x] = [(locationKey c1x, r)] ∧
      r.purpose = maxPurpose c1x.purpose c2x.purpose) := by
  have h := merge_priority_and_tie_backfill c1x c2x rfl
  obtain ⟨⟨r, h1, h2, _, _⟩, _⟩ := h
  exact ⟨rfl, r, h1, h2⟩

/-- The JS truthiness of the geocoder credential (`!mapboxToken`):
`none` models an absent binding, `some ""` the empty string. -/
def tokenTruthy : Option (List Char) → Bool
  | none => false
  | some t => !t.isEmpty

/-- Insertion step of the ascending-distance ordering used for the final
locations list. -/
def insertByDistance (x : ResolvedLocation) : List ResolvedLocation → List ResolvedLocation
  | [] => [x]
  | y :: ys =>
    if x.distance_miles < y.distance_miles then x :: y :: ys
    else y :: insertByDistance x ys

/-- A deterministic model of `Array.prototype.sort` with the
`(a, b) => a.distance_miles - b.distance_miles` comparator (stable,
ascending). -/
def sortByDistance (l : List ResolvedLocation) : List ResolvedLocation :=
  l.foldr insertByDistance []

/-- The observable result of `resolveLocations`, instrumented with how
often the mention extractor and the per-mention geocoder were invoked. -/
structure ResolveOutcome where
  mentions : List MentionSummary
  locations : List ResolvedLocation
  extractCalls : ℕ
  geocodeCalls : ℕ

/-- `resolveLocations` from `src/unnamed/part_001` (lines 293-341),
parametric in the mention extractor (a host-regex function) and the
per-mention geocoding call (one network request per mention; a failing
request is caught and contributes an empty candidate list). A falsy
credential short-circuits to the empty result before any extraction or
geocoding. -/
def resolveLocationsRun (extract : List Char → List MentionSummary)
    (geocode : MentionSummary → Except Unit (List ResolvedLocation))
    (mapboxToken : Option (List Char)) (query : List Char) (userLocation : Location) :
    ResolveOutcome :=
  if tokenTruthy mapboxToken = false then
    { mentions := [], locations := [], extractCalls := 0, geocodeCalls := 0 }
  else
    let mentions := extract query
    if mentions.isEmpty then
      { mentions := [], locations := [], extractCalls := 1, geocodeCalls := 0 }
    else
      let results := mentions.map (fun m =>
        match geocode m with
        | .ok cs => cs
        | .error _ => [])
      let entries := results.flatten.foldl mergeStep []
      { mentions := mentions,
        locations := sortByDistance (entries.map Prod.snd),
        extractCalls := 1,
        geocodeCalls := mentions.length }

/-- C10: with an absent or empty geocoder credential, `resolveLocations`
returns empty mentions and locations, raises no error, and performs no
mention extraction and no geocoding lookup at all. -/
theorem resolveLocations_missing_token :
    ∀ (extract : List Char → List MentionSummary)
      (geocode : MentionSummary → Except Unit (List ResolvedLocation))
      (token : Option (List Char)) (query : List Char) (user : Location),
      tokenTruthy token = false →
      resolveLocationsRun extract geocode token query user =
        { mentions := [], locations := [], extractCalls := 0, geocodeCalls := 0 } := by
  intro extract geocode token query user h
  unfold resolveLocationsRun
  rw [if_pos h]

/-- C10 witness: the empty-string credential on a concrete query. -/
theorem resolveLocations_missing_token_witness :
    tokenTruthy (some []) = false ∧
    resolveLocationsRun (fun _ => []) (fun _ => .error ()) (some [])
        "5 mile loop".toList { lat := 0, lng := 0 } =
      { mentions := [], locations := [], extractCalls := 0, geocodeCalls := 0 } :=
  ⟨rfl, resolveLocations_missing_token _ _ _ _ _ rfl⟩
